import Mathlib

/-!
Verification of the chemistry-diagram-generator backend (`app.py`).

The program is a small Flask proxy with two routes:
* `POST /generate_diagram` (`generate_diagram`, app.py lines 38-96): validates a JSON
  body, builds a prompt, calls the Gemini client once, cleans the response text with a
  regular expression, and maps errors to HTTP responses;
* `GET /` (`serve_index`, app.py lines 103-107): serves the fixed file `index.html`.

Strings are modelled as `List Char`.  The regular-expression search
`re.search(r'```(?:html|javascript|js)?\s*([\s\S]*?)\s*```', raw_text)` is embedded as a
specialized backtracking matcher that mirrors Python's semantics for this fixed pattern:
leftmost starting position wins; the alternation tries `html`, `javascript`, `js`, then
the empty alternative; `\s*` is greedy (longest first), `[\s\S]*?` is lazy (shortest
first).  The external pieces (HTTP parsing, the Gemini client, the file system) are
modelled as explicit inputs of the handler functions.
-/

/-- The backtick character, written by code point. -/
def btick : Char := Char.ofNat 96

/-- The single-quote character, written by code point. -/
def squote : Char := Char.ofNat 39

/-- Python whitespace, as matched by `\s` on `str` patterns and stripped by
`str.strip()`: ASCII space, `\t`, `\n`, `\v`, `\f`, `\r`, the file/group/record/unit
separators, NEL, NBSP, and the Unicode space code points. -/
def isWs (c : Char) : Bool :=
  c.toNat == 32 || c.toNat == 9 || c.toNat == 10 || c.toNat == 11 || c.toNat == 12 ||
  c.toNat == 13 || c.toNat == 28 || c.toNat == 29 || c.toNat == 30 || c.toNat == 31 ||
  c.toNat == 133 || c.toNat == 160 || c.toNat == 5760 ||
  (8192 ≤ c.toNat && c.toNat ≤ 8202) || c.toNat == 8232 || c.toNat == 8233 ||
  c.toNat == 8239 || c.toNat == 8287 || c.toNat == 12288

/-- Python `str.strip()`: remove leading and trailing whitespace. -/
def strip (l : List Char) : List Char :=
  ((l.dropWhile isWs).reverse.dropWhile isWs).reverse

/-- Predicate `isPre pre l`: `pre` is a prefix of `l` (character-by-character comparison). -/
def isPre : List Char → List Char → Bool
  | [], _ => true
  | _ :: _, [] => false
  | a :: as, b :: bs => a == b && isPre as bs

/-- The literal ` ``` ` fence delimiter of the pattern. -/
def fence3 : List Char := [btick, btick, btick]

/-- Predicate `fenceAt s i`: the literal ` ``` ` occurs in `s` starting at position `i`. -/
def fenceAt (s : List Char) (i : Nat) : Bool :=
  isPre fence3 (s.drop i)

/-- Length of the maximal whitespace run of `s` starting at position `q`
(the text a greedy `\s*` consumes there). -/
def wsRunAt (s : List Char) (q : Nat) : Nat :=
  ((s.drop q).takeWhile isWs).length

/-- Length consumed by the alternation `(?:html|javascript|js)?` at position `p`:
the alternatives are tried in order; they are mutually exclusive as literals, and the
empty alternative consumes nothing. -/
def tagLen (s : List Char) (p : Nat) : Nat :=
  if isPre ("html".toList) (s.drop p) then 4
  else if isPre ("javascript".toList) (s.drop p) then 10
  else if isPre ("js".toList) (s.drop p) then 2
  else 0

/-- The trailing `\s*```` of the pattern at position `q`: greedily try a whitespace run
of length `v`, `v - 1`, ..., `0` followed by the closing fence (`v` starts at the full
whitespace run length).  Only success matters to the capture, so the result is a `Bool`. -/
def tryClose (s : List Char) (q : Nat) : Nat → Bool
  | 0 => fenceAt s q
  | v + 1 => fenceAt s (q + (v + 1)) || tryClose s q v

/-- The lazy group `[\s\S]*?` followed by `\s*````: starting from capture end `q`, grow
the capture one character at a time, returning the first end position at which the
closing part matches.  `fuel` bounds the remaining growth (string length minus `q`). -/
def lazyLoop (s : List Char) : Nat → Nat → Option Nat
  | q, 0 => if tryClose s q (wsRunAt s q) then some q else none
  | q, fuel + 1 => if tryClose s q (wsRunAt s q) then some q else lazyLoop s (q + 1) fuel

/-- The suffix `\s*([\s\S]*?)\s*```` of the pattern at position `p`: the leading greedy
`\s*` tries length `w` first (initially the full whitespace run at `p`), backtracking to
shorter lengths; the capture begins after it.  Returns the capture span `(start, end)`. -/
def matchRest (s : List Char) (p : Nat) : Nat → Option (Nat × Nat)
  | 0 =>
    match lazyLoop s p (s.length - p) with
    | some e => some (p, e)
    | none => none
  | w + 1 =>
    match lazyLoop s (p + (w + 1)) (s.length - (p + (w + 1))) with
    | some e => some (p + (w + 1), e)
    | none => matchRest s p w

/-- Try the whole pattern anchored at position `i`: opening fence, optional language
tag (backtracking to the empty alternative if the tagged attempt fails), then
`matchRest`.  Returns the capture span of group 1. -/
def matchAt (s : List Char) (i : Nat) : Option (Nat × Nat) :=
  if fenceAt s i then
    match matchRest s (i + 3 + tagLen s (i + 3)) (wsRunAt s (i + 3 + tagLen s (i + 3))) with
    | some r => some r
    | none =>
      if tagLen s (i + 3) == 0 then none
      else matchRest s (i + 3) (wsRunAt s (i + 3))
  else none

/-- The `re.search` scan: try each starting position from `i` on, leftmost match wins. -/
def searchFrom (s : List Char) : Nat → Nat → Option (Nat × Nat)
  | i, 0 => matchAt s i
  | i, fuel + 1 =>
    match matchAt s i with
    | some r => some r
    | none => searchFrom s (i + 1) fuel

/-- Model of `re.search(r'```(?:html|javascript|js)?\s*([\s\S]*?)\s*```', s)`: the capture of
group 1 of the leftmost match, or `none` when the pattern does not match. -/
def searchFence (s : List Char) : Option (List Char) :=
  match searchFrom s 0 s.length with
  | some (a, e) => some ((s.drop a).take (e - a))
  | none => none

/-- app.py lines 74-84: `raw_text = response.text.strip()`; on a regex match the result
is `match.group(1).strip()`, otherwise `raw_text`. -/
def cleanResponseText (text : List Char) : List Char :=
  match searchFence (strip text) with
  | some g => strip g
  | none => strip text

/-- A parsed JSON value, as produced by Flask's `request.get_json()`.  JSON numbers are
modelled as integers (the claims under study only involve integral numbers; JSON
floating-point literals are outside this embedding). -/
inductive JValue where
  | null
  | bool (b : Bool)
  | num (n : Int)
  | str (s : List Char)
  | arr (elems : List JValue)
  | obj (fields : List (List Char × JValue))

/-- Python truthiness (`if not concept`) of a parsed JSON value: `None`, `False`, `0`,
`""`, `[]` and `\x7b\x7d` are falsy, everything else is truthy. -/
def jTruthy : JValue → Bool
  | .null => false
  | .bool b => b
  | .num n => n != 0
  | .str s => !s.isEmpty
  | .arr xs => !xs.isEmpty
  | .obj fs => !fs.isEmpty

/-- Model of `dict.get(key)` on a parsed JSON object: `none` models Python `None` (key absent).
JSON duplicate keys resolve to the last occurrence, as in Python's JSON parser. -/
def getField (fields : List (List Char × JValue)) (key : List Char) : Option JValue :=
  match fields with
  | [] => none
  | (k, v) :: rest =>
    match getField rest key with
    | some r => some r
    | none => if k == key then some v else none

/-- Decimal rendering of a natural number, as Python prints it. -/
def natStr (n : Nat) : List Char := Nat.toDigits 10 n

/-- Python `str(int)`: decimal digits with a leading `-` for negatives. -/
def intStr (n : Int) : List Char :=
  if n < 0 then '-' :: natStr n.natAbs else natStr n.natAbs

/-- One hexadecimal digit. -/
def hexDigit (n : Nat) : Char :=
  if n < 10 then Char.ofNat (48 + n) else Char.ofNat (87 + (n - 10))

/-- Python `repr` escape of one character inside a string literal quoted by `quote`:
backslash and the quote are escaped, `\n`/`\r`/`\t` use their mnemonic escapes, other
control characters use `\xhh`; remaining characters are passed through (faithful for
the printable characters that occur in the claims; Unicode unprintables are not
distinguished here). -/
def pyEscChar (quote : Char) (c : Char) : List Char :=
  if c == '\\' then ['\\', '\\']
  else if c == quote then ['\\', quote]
  else if c == '\n' then ['\\', 'n']
  else if c == '\r' then ['\\', 'r']
  else if c == '\t' then ['\\', 't']
  else if c.toNat < 32 || c.toNat == 127 then
    ['\\', 'x', hexDigit (c.toNat / 16), hexDigit (c.toNat % 16)]
  else [c]

/-- Python `repr` of a string: single quotes, switching to double quotes when the
string contains a single quote but no double quote. -/
def pyReprOfStr (s : List Char) : List Char :=
  let q := if s.contains squote && !s.contains '"' then '"' else squote
  q :: (s.map (pyEscChar q)).flatten ++ [q]

mutual

/-- Python `repr` of a parsed JSON value (used by `str` for containers). -/
def pyRepr : JValue → List Char
  | .null => "None".toList
  | .bool true => "True".toList
  | .bool false => "False".toList
  | .num n => intStr n
  | .str s => pyReprOfStr s
  | .arr xs => '[' :: pyReprElems xs ++ [']']
  | .obj fs => Char.ofNat 123 :: pyReprFields fs ++ [Char.ofNat 125]

/-- Comma-separated `repr`s of list elements. -/
def pyReprElems : List JValue → List Char
  | [] => []
  | [x] => pyRepr x
  | x :: y :: rest => pyRepr x ++ ", ".toList ++ pyReprElems (y :: rest)

/-- Comma-separated `repr(key): repr(value)` pairs of a dict. -/
def pyReprFields : List (List Char × JValue) → List Char
  | [] => []
  | [(k, v)] => pyReprOfStr k ++ ": ".toList ++ pyRepr v
  | (k, v) :: f :: rest => pyReprOfStr k ++ ": ".toList ++ pyRepr v ++ ", ".toList ++ pyReprFields (f :: rest)

end

/-- Python `str` of a parsed JSON value, as interpolated by the f-string at app.py
line 61: a string interpolates as itself, every other value as its `repr`. -/
def pyStr : JValue → List Char
  | .str s => s
  | v => pyRepr v

/-- The body of an HTTP response produced by the handler: either plain text with an
explicit `Content-Type` header (the success path, app.py line 87) or a JSON object
a JSON object with an error field produced by `jsonify` (every error path). -/
inductive RBody where
  | plainText (contentType : List Char) (body : List Char)
  | errJson (errMsg : List Char)
deriving DecidableEq

/-- An HTTP response: status code and body. -/
structure Resp where
  status : Nat
  body : RBody
deriving DecidableEq

/-- The observable outcome of one run of the `/generate_diagram` handler: the HTTP
response together with the list of `(model, prompt)` calls issued to the external
Gemini client, in order. -/
structure HandlerOut where
  resp : Resp
  calls : List (List Char × List Char)
deriving DecidableEq

/-- Outcome of the single `client.models.generate_content` call, supplied as an input
to the handler model: the response text, a raised `APIError` (carrying `str(e)`), or
any other raised exception (carrying `str(e)`). -/
inductive UpstreamOutcome where
  | ok (text : List Char)
  | apiError (msg : List Char)
  | raised (msg : List Char)

/-- app.py line 43: the fixed message returned when the client was not initialized. -/
def errNoClient : List Char :=
  "Gemini 客户端未初始化，请检查 API Key。".toList

/-- app.py line 50: the message for a missing/falsy `concept` field. -/
def errMissingConcept : List Char :=
  "请求体中缺少 ".toList ++ [squote] ++ "concept".toList ++ [squote] ++ " 参数。".toList

/-- app.py line 52: the message for a body that does not behave as a JSON object. -/
def errMalformedJson : List Char :=
  "请求数据格式错误，应为 JSON。".toList

/-- app.py line 90: the prefix prepended to `str(e)` for a caught `APIError`. -/
def apiErrorMsgHead : List Char :=
  "Gemini API 调用失败 (APIError): ".toList

/-- app.py line 94: the prefix prepended to `str(e)` for any other caught exception. -/
def internalErrorMsgHead : List Char :=
  "服务器内部错误 (Exception): ".toList

/-- The `Content-Type` header value set on the success path (app.py line 87). -/
def ctTextPlain : List Char := "text/plain".toList

/-- The fixed model identifier passed to the client (app.py line 69). -/
def modelName : List Char := "gemini-2.5-flash".toList

/-- The key looked up in the request body (app.py line 48). -/
def conceptKey : List Char := "concept".toList

/-- The prompt template text before the interpolated concept (app.py lines 55-61,
including the f-string's literal newlines and indentation). -/
def promptHead : List Char :=
  ("\n    你是一个专业的化学可视化生成器。\n    请根据用户提供的概念，生成一段**仅包含**HTML元素、CSS样式和JavaScript脚本的代码块。\n    此代码块必须能够被**直接注入**到前端页面的一个DIV容器中，且**不包含**<html>、<head>、<body>或完整的文档结构标签。\n    要求：使用纯 CSS 动画或 SVG/JavaScript 实现动态或交互效果。请确保代码的简洁和可读性。\n\n    概念：【").toList

/-- The prompt template text after the interpolated concept (app.py lines 61-62). -/
def promptTail : List Char := "】\n    ".toList

/-- app.py lines 55-62: the f-string prompt with the concept interpolated by `str`. -/
def buildPrompt (conceptStr : List Char) : List Char :=
  promptHead ++ conceptStr ++ promptTail

/-- Outcome of the request-parsing block, app.py lines 46-52. -/
inductive Validation where
  | malformed
  | missing
  | ok (concept : JValue)

/-- app.py lines 46-52.  The request body is `none` when `request.get_json()` raises
(non-JSON body or unsupported content type — caught, "malformed").  A parsed body that
is not an object makes `data.get` raise `AttributeError` — caught, "malformed".  On an
object, a missing or falsy `concept` yields the "missing" error; a truthy one is
accepted. -/
def validateBody : Option JValue → Validation
  | none => .malformed
  | some (.obj fields) =>
    match getField fields conceptKey with
    | none => .missing
    | some v => if jTruthy v then .ok v else .missing
  | some _ => .malformed

/-- The `/generate_diagram` handler, app.py lines 38-96.  `clientInit` is whether the
Gemini client handle was constructed at startup (a credential was present, app.py
lines 25-33); `body` is the parsed request body (`none` when parsing raises); and
`upstream` is the behavior the external client would exhibit if called. -/
def generate_diagram (clientInit : Bool) (body : Option JValue)
    (upstream : UpstreamOutcome) : HandlerOut :=
  if !clientInit then
    ⟨⟨500, .errJson errNoClient⟩, []⟩
  else
    match validateBody body with
    | .malformed => ⟨⟨400, .errJson errMalformedJson⟩, []⟩
    | .missing => ⟨⟨400, .errJson errMissingConcept⟩, []⟩
    | .ok concept =>
      let call := (modelName, buildPrompt (pyStr concept))
      match upstream with
      | .ok text => ⟨⟨200, .plainText ctTextPlain (cleanResponseText text)⟩, [call]⟩
      | .apiError m => ⟨⟨500, .errJson (apiErrorMsgHead ++ m)⟩, [call]⟩
      | .raised m => ⟨⟨500, .errJson (internalErrorMsgHead ++ m)⟩, [call]⟩

/-- Response of the static route: status plus the served bytes (`none` on 404). -/
structure StaticOut where
  status : Nat
  file : Option (List Nat)
deriving DecidableEq

/-- The file name served by the root route (app.py line 107). -/
def indexFile : List Char := "index.html".toList

/-- The `/` route, app.py lines 103-107: `send_from_directory('.', 'index.html')`.
`dir` models the working directory as a map from file names to byte contents; Flask
serves the file's bytes verbatim with status 200, or raises `NotFound` (404) when the
file is absent. -/
def serve_index (dir : List Char → Option (List Nat)) : StaticOut :=
  match dir indexFile with
  | some b => ⟨200, some b⟩
  | none => ⟨404, none⟩

/-- Whether `l` contains an occurrence of the triple-backtick fence delimiter. -/
def hasFence : List Char → Bool
  | [] => false
  | c :: rest => isPre fence3 (c :: rest) || hasFence rest

/-- Whether `l` contains `sub` as a contiguous substring. -/
def containsSub (l sub : List Char) : Bool :=
  match l with
  | [] => sub.isEmpty
  | c :: rest => isPre sub (c :: rest) || containsSub rest sub

/-- A sample valid concept value. -/
def exConcept : JValue := .str ("H2O".toList)

/-- A sample valid request body carrying `exConcept`. -/
def exBody : Option JValue := some (.obj [(conceptKey, exConcept)])

/-- Upstream text of the spec's tagged-fence example. -/
def exFencedHtml : List Char := "```html\n<div>X</div>\n```".toList

/-- Upstream text of the spec's fence-free example. -/
def exNoFence : List Char := "<div>Y</div>".toList

/-- Upstream text with a fence tagged by an unrecognized language. -/
def exCss : List Char := "```css\n<div>\n```".toList

/-- Upstream text with non-whitespace prose before and after a fenced block. -/
def exSurround : List Char := "intro ```html\nX\n``` outro".toList

/-- Upstream text with two fenced blocks. -/
def exTwoBlocks : List Char := "```html\nA\n```\n```html\nB\n```".toList

/-- A sample working directory containing `index.html` with bytes `<h1>`. -/
def exDir : List Char → Option (List Nat) :=
  fun nm => if nm == indexFile then some [60, 104, 49, 62] else none

theorem isPre_length (pre : List Char) : ∀ l, isPre pre l = true → pre.length ≤ l.length := by
  induction pre with
  | nil => intro l _; simp
  | cons a as ih =>
    intro l h
    cases l with
    | nil => simp [isPre] at h
    | cons b bs =>
      simp only [isPre, Bool.and_eq_true] at h
      have := ih bs h.2
      simp only [List.length_cons]
      omega

theorem isPre_of_take (pre : List Char) :
    ∀ (l : List Char) (n : Nat), isPre pre (l.take n) = true → isPre pre l = true := by
  induction pre with
  | nil => intro l n _; rfl
  | cons a as ih =>
    intro l n h
    cases l with
    | nil => simp at h; simp [h]
    | cons b bs =>
      cases n with
      | zero => simp [isPre] at h
      | succ m =>
        simp only [List.take_succ_cons, isPre, Bool.and_eq_true] at h ⊢
        exact ⟨h.1, ih bs m h.2⟩

theorem fence_tryClose (s : List Char) (q : Nat) (h : fenceAt s q = true) :
    ∀ v, tryClose s q v = true := by
  intro v
  induction v with
  | zero => simpa [tryClose] using h
  | succ v ih => simp [tryClose, ih]

theorem lazyLoop_noFence (s : List Char) :
    ∀ (fuel q e : Nat), lazyLoop s q fuel = some e →
      q ≤ e ∧ ∀ d, q ≤ d → d < e → fenceAt s d = false := by
  intro fuel
  induction fuel with
  | zero =>
    intro q e h
    simp only [lazyLoop] at h
    split at h
    · injection h with h
      subst h
      exact ⟨Nat.le_refl _, fun d h1 h2 => absurd (Nat.lt_of_le_of_lt h1 h2) (Nat.lt_irrefl q)⟩
    · cases h
  | succ fuel ih =>
    intro q e h
    simp only [lazyLoop] at h
    split at h
    · injection h with h
      subst h
      exact ⟨Nat.le_refl _, fun d h1 h2 => absurd (Nat.lt_of_le_of_lt h1 h2) (Nat.lt_irrefl q)⟩
    · rename_i hc
      obtain ⟨hle, hint⟩ := ih (q + 1) e h
      refine ⟨by omega, fun d h1 h2 => ?_⟩
      rcases Nat.eq_or_lt_of_le h1 with h1 | h1
      · cases hf : fenceAt s d
        · rfl
        · exact absurd (fence_tryClose s d hf (wsRunAt s d)) (h1 ▸ hc)
      · exact hint d h1 h2

theorem matchRest_lazy (s : List Char) (p : Nat) :
    ∀ (w a e : Nat), matchRest s p w = some (a, e) →
      ∃ fuel, lazyLoop s a fuel = some e := by
  intro w
  induction w with
  | zero =>
    intro a e h
    unfold matchRest at h
    split at h
    · rename_i x hl
      injection h with h
      obtain ⟨rfl, rfl⟩ : p = a ∧ x = e := by
        have h1 := congrArg Prod.fst h
        have h2 := congrArg Prod.snd h
        exact ⟨h1, h2⟩
      exact ⟨_, hl⟩
    · cases h
  | succ w ih =>
    intro a e h
    unfold matchRest at h
    split at h
    · rename_i x hl
      injection h with h
      obtain ⟨rfl, rfl⟩ : p + (w + 1) = a ∧ x = e := by
        have h1 := congrArg Prod.fst h
        have h2 := congrArg Prod.snd h
        exact ⟨h1, h2⟩
      exact ⟨_, hl⟩
    · exact ih a e h

theorem matchAt_noFence (s : List Char) (i a e : Nat) (h : matchAt s i = some (a, e)) :
    ∀ d, a ≤ d → d < e → fenceAt s d = false := by
  unfold matchAt at h
  split at h
  · split at h
    · rename_i r heq
      injection h with h
      subst h
      obtain ⟨fuel, hl⟩ := matchRest_lazy s _ _ a e heq
      exact (lazyLoop_noFence s fuel a e hl).2
    · split at h
      · cases h
      · obtain ⟨fuel, hl⟩ := matchRest_lazy s _ _ a e h
        exact (lazyLoop_noFence s fuel a e hl).2
  · cases h

theorem searchFrom_noFence (s : List Char) :
    ∀ (fuel i a e : Nat), searchFrom s i fuel = some (a, e) →
      ∀ d, a ≤ d → d < e → fenceAt s d = false := by
  intro fuel
  induction fuel with
  | zero => intro i a e h; exact matchAt_noFence s i a e h
  | succ fuel ih =>
    intro i a e h
    unfold searchFrom at h
    split at h
    · rename_i r heq
      injection h with h
      subst h
      exact matchAt_noFence s i a e heq
    · exact ih (i + 1) a e h

theorem searchFence_span (s : List Char) (g : List Char) (h : searchFence s = some g) :
    ∃ a e, g = (s.drop a).take (e - a) ∧ ∀ d, a ≤ d → d < e → fenceAt s d = false := by
  unfold searchFence at h
  split at h
  · rename_i a e heq
    injection h with h
    exact ⟨a, e, h.symm, searchFrom_noFence s s.length 0 a e heq⟩
  · cases h

theorem hasFence_exists (l : List Char) (h : hasFence l = true) :
    ∃ j, isPre fence3 (l.drop j) = true := by
  induction l with
  | nil => simp [hasFence] at h
  | cons c rest ih =>
    simp only [hasFence, Bool.or_eq_true] at h
    rcases h with h | h
    · exact ⟨0, h⟩
    · obtain ⟨j, hj⟩ := ih h
      exact ⟨j + 1, by simpa using hj⟩

/-- The capture of a successful fence search never itself contains the ` ``` `
delimiter: the lazy group stops before the first closing fence. -/
theorem searchFence_capture_noFence (s g : List Char) (h : searchFence s = some g) :
    hasFence g = false := by
  obtain ⟨a, e, rfl, hnf⟩ := searchFence_span s g h
  cases hf : hasFence ((s.drop a).take (e - a))
  · rfl
  · exfalso
    obtain ⟨j, hj⟩ := hasFence_exists _ hf
    rw [List.drop_take, List.drop_drop] at hj
    have hlen := isPre_length fence3 _ hj
    simp only [List.length_take, List.length_drop] at hlen
    have h3 : fence3.length = 3 := by decide
    rw [h3] at hlen
    have hd : fenceAt s (a + j) = true := by
      unfold fenceAt
      exact isPre_of_take fence3 _ _ hj
    have : fenceAt s (a + j) = false := hnf (a + j) (by omega) (by omega)
    rw [hd] at this
    cases this

example : cleanResponseText ("```html\n<div>X</div>\n```".toList) = "<div>X</div>".toList := by decide
example : cleanResponseText ("<div>Y</div>".toList) = "<div>Y</div>".toList := by decide
example : cleanResponseText ("```css\n<div>\n```".toList) = "css\n<div>".toList := by decide
example : cleanResponseText ("intro ```html\nX\n``` outro".toList) = "X".toList := by decide
example : cleanResponseText ("```html\nA\n```\n```html\nB\n```".toList) = "A".toList := by decide
example : cleanResponseText ("````` ```".toList) = "``".toList := by decide
example : cleanResponseText ("```js```".toList) = "".toList := by decide
example : cleanResponseText ("````html".toList) = "````html".toList := by decide
example : cleanResponseText ("``` \t\nhey there \n ```".toList) = "hey there".toList := by decide

/-- Claim C1: for every upstream response text, the handler trims it, searches for a
markdown fenced block optionally tagged html, javascript, or js, and answers 200 with
`Content-Type: text/plain`; the body is the trimmed inner capture when such a block is
found and the whole trimmed raw text otherwise; in particular the upstream text
"```html\n<div>X</div>\n```" yields body exactly "<div>X</div>" and "<div>Y</div>"
yields exactly "<div>Y</div>". -/
theorem claim1_success_extraction (body : Option JValue) (c : JValue) (text : List Char)
    (hv : validateBody body = .ok c) :
    ((searchFence (strip text) = none →
        (generate_diagram true body (.ok text)).resp =
          ⟨200, .plainText ctTextPlain (strip text)⟩) ∧
      (∀ g, searchFence (strip text) = some g →
        (generate_diagram true body (.ok text)).resp =
          ⟨200, .plainText ctTextPlain (strip g)⟩)) ∧
    (generate_diagram true body (.ok exFencedHtml)).resp =
      ⟨200, .plainText ctTextPlain ("<div>X</div>".toList)⟩ ∧
    (generate_diagram true body (.ok exNoFence)).resp =
      ⟨200, .plainText ctTextPlain ("<div>Y</div>".toList)⟩ := by
  have hgen : ∀ t : List Char, (generate_diagram true body (.ok t)).resp =
      ⟨200, .plainText ctTextPlain (cleanResponseText t)⟩ := by
    intro t
    simp [generate_diagram, hv]
  refine ⟨⟨?_, ?_⟩, ?_, ?_⟩
  · intro hn
    rw [hgen]
    unfold cleanResponseText
    rw [hn]
  · intro g hg
    rw [hgen]
    unfold cleanResponseText
    rw [hg]
  · rw [hgen]
    have : cleanResponseText exFencedHtml = "<div>X</div>".toList := by decide
    rw [this]
  · rw [hgen]
    have : cleanResponseText exNoFence = "<div>Y</div>".toList := by decide
    rw [this]

/-- Witness for claim C1 at a concrete valid body and the spec's example text. -/
theorem claim1_success_extraction_witness :
    validateBody exBody = .ok exConcept ∧
    (generate_diagram true exBody (.ok exFencedHtml)).resp =
      ⟨200, .plainText ctTextPlain ("<div>X</div>".toList)⟩ :=
  ⟨rfl, (claim1_success_extraction exBody exConcept exFencedHtml rfl).2.1⟩

/-- Claim C2 counterexample: on the upstream text "```css\n<div>\n```" the extraction
pattern does match (through the empty alternative of the optional tag), and the success
body is not the raw trimmed text with the fences still present — the fences are
stripped. -/
theorem claim2_counterexample :
    searchFence (strip exCss) ≠ none ∧
    (generate_diagram true exBody (.ok exCss)).resp ≠
      ⟨200, .plainText ctTextPlain (strip exCss)⟩ := by
  refine ⟨by decide, by decide⟩

/-- Claim C2 amended: a fenced block tagged with a language other than
html/javascript/js still matches the pattern via the empty optional tag; the handler
strips the fence delimiters and returns the inner capture, in which the unrecognized
language word remains as leading text (e.g. "```css\n<div>\n```" yields
"css\n<div>"). -/
theorem claim2_amended :
    searchFence (strip exCss) = some ("css\n<div>".toList) ∧
    (generate_diagram true exBody (.ok exCss)).resp =
      ⟨200, .plainText ctTextPlain ("css\n<div>".toList)⟩ := by
  refine ⟨by decide, by decide⟩

/-- Claim C3 counterexample: on "intro ```html\nX\n``` outro" the handler's body is
exactly "X": the non-whitespace prose before and after the fenced block is discarded,
not preserved. -/
theorem claim3_counterexample :
    containsSub exSurround ("intro".toList) = true ∧
    containsSub exSurround ("outro".toList) = true ∧
    (generate_diagram true exBody (.ok exSurround)).resp =
      ⟨200, .plainText ctTextPlain ("X".toList)⟩ ∧
    containsSub ("X".toList) ("intro".toList) = false ∧
    containsSub ("X".toList) ("outro".toList) = false := by
  refine ⟨by decide, by decide, by decide, by decide, by decide⟩

/-- Claim C3 amended: the success body is the whole trimmed text when the pattern does
not match, but when it does match the body is only the trimmed capture of the first
fenced block, and any text outside the matched fences is discarded. -/
theorem claim3_amended (text g : List Char) (h : searchFence (strip text) = some g) :
    cleanResponseText text = strip g ∧
    cleanResponseText exSurround = "X".toList := by
  constructor
  · unfold cleanResponseText
    rw [h]
  · decide

/-- Witness for the amended claim C3 at the prose-surrounded example. -/
theorem claim3_amended_witness :
    searchFence (strip exSurround) = some ("X".toList) ∧
    cleanResponseText exSurround = strip ("X".toList) :=
  ⟨by decide, (claim3_amended exSurround ("X".toList) (by decide)).1⟩

/-- Claim C4: the match is non-greedy — the capture of a successful search never
contains the ``` delimiter, so it ends at the first closing fence; on an upstream text
with two fenced blocks only the first block's inner content is returned. -/
theorem claim4_nongreedy (s g : List Char) (h : searchFence s = some g) :
    hasFence g = false ∧
    (generate_diagram true exBody (.ok exTwoBlocks)).resp =
      ⟨200, .plainText ctTextPlain ("A".toList)⟩ := by
  refine ⟨searchFence_capture_noFence s g h, by decide⟩

/-- Witness for claim C4 at the two-block example. -/
theorem claim4_nongreedy_witness :
    searchFence (strip exTwoBlocks) = some ("A".toList) ∧
    hasFence ("A".toList) = false :=
  ⟨by decide, (claim4_nongreedy (strip exTwoBlocks) ("A".toList) (by decide)).1⟩

/-- Claim C5 counterexample: a request whose body does not parse as JSON does not
always receive 400 — when the client handle is None the handler returns 500 before
ever examining the body, refuting the unconditional 400. -/
theorem claim5_counterexample :
    (generate_diagram false none (.ok [])).resp.status = 500 ∧
    (generate_diagram false none (.ok [])).resp.status ≠ 400 := by
  refine ⟨rfl, by decide⟩

/-- Claim C5 amended: provided the client handle was constructed, every request whose
body fails to parse as a JSON object receives 400 with the malformed-JSON message and
every request lacking a truthy concept receives 400 with the distinct missing-concept
message, with no external call in either case. -/
theorem claim5_amended (body : Option JValue) (upstream : UpstreamOutcome) :
    (validateBody body = .malformed →
      generate_diagram true body upstream = ⟨⟨400, .errJson errMalformedJson⟩, []⟩) ∧
    (validateBody body = .missing →
      generate_diagram true body upstream = ⟨⟨400, .errJson errMissingConcept⟩, []⟩) ∧
    errMalformedJson ≠ errMissingConcept := by
  refine ⟨?_, ?_, by decide⟩
  · intro h
    simp [generate_diagram, h]
  · intro h
    simp [generate_diagram, h]

/-- Witness for the amended claim C5: a non-JSON body and an empty JSON object. -/
theorem claim5_amended_witness :
    validateBody none = .malformed ∧
    generate_diagram true none (.ok []) = ⟨⟨400, .errJson errMalformedJson⟩, []⟩ ∧
    validateBody (some (.obj [])) = .missing ∧
    generate_diagram true (some (.obj [])) (.ok []) =
      ⟨⟨400, .errJson errMissingConcept⟩, []⟩ :=
  ⟨rfl, (claim5_amended none (.ok [])).1 rfl, rfl,
    (claim5_amended (some (.obj [])) (.ok [])).2.1 rfl⟩

/-- Claim C6: when no API credential was present at startup (client handle None),
every call to the handler returns 500 with the fixed message and the external client
is never invoked (no call is recorded). -/
theorem claim6_no_client (body : Option JValue) (upstream : UpstreamOutcome) :
    generate_diagram false body upstream = ⟨⟨500, .errJson errNoClient⟩, []⟩ := rfl

/-- Claim C7: an `APIError` from the external call maps to 500 with a JSON error whose
message extends the upstream error message; any other exception maps to 500 with the
generic internal-error description plus the underlying message; in both cases exactly
one external call was attempted. -/
theorem claim7_error_mapping (body : Option JValue) (c : JValue) (m : List Char)
    (hv : validateBody body = .ok c) :
    generate_diagram true body (.apiError m) =
      ⟨⟨500, .errJson (apiErrorMsgHead ++ m)⟩, [(modelName, buildPrompt (pyStr c))]⟩ ∧
    generate_diagram true body (.raised m) =
      ⟨⟨500, .errJson (internalErrorMsgHead ++ m)⟩, [(modelName, buildPrompt (pyStr c))]⟩ ∧
    (generate_diagram true body (.apiError m)).calls.length = 1 ∧
    (generate_diagram true body (.raised m)).calls.length = 1 := by
  refine ⟨?_, ?_, ?_, ?_⟩ <;> simp [generate_diagram, hv]

/-- Witness for claim C7 at a concrete valid body and upstream error message. -/
theorem claim7_error_mapping_witness :
    validateBody exBody = .ok exConcept ∧
    generate_diagram true exBody (.apiError ("boom".toList)) =
      ⟨⟨500, .errJson (apiErrorMsgHead ++ "boom".toList)⟩,
        [(modelName, buildPrompt (pyStr exConcept))]⟩ :=
  ⟨rfl, (claim7_error_mapping exBody exConcept ("boom".toList) rfl).1⟩

/-- Claim C8: a GET on the root path returns the bytes of `index.html` from the
working directory verbatim with status 200, and a 404 NotFound when the file is
absent. -/
theorem claim8_static (dir : List Char → Option (List Nat)) :
    (∀ b, dir indexFile = some b → serve_index dir = ⟨200, some b⟩) ∧
    (dir indexFile = none → serve_index dir = ⟨404, none⟩) := by
  constructor
  · intro b h
    unfold serve_index
    rw [h]
  · intro h
    unfold serve_index
    rw [h]

/-- Witness for claim C8 at a concrete directory containing `index.html`. -/
theorem claim8_static_witness :
    exDir indexFile = some [60, 104, 49, 62] ∧
    serve_index exDir = ⟨200, some [60, 104, 49, 62]⟩ :=
  ⟨rfl, (claim8_static exDir).1 [60, 104, 49, 62] rfl⟩

/-- Claim C9 (implicit): the client-handle check precedes body parsing — with the
handle None the handler's outcome is identical for any two request bodies (the body is
never examined), the status is always 500, and even a malformed body never gets 400. -/
theorem claim9_client_check_first (b1 b2 : Option JValue) (upstream : UpstreamOutcome) :
    generate_diagram false b1 upstream = generate_diagram false b2 upstream ∧
    (generate_diagram false b1 upstream).resp.status = 500 ∧
    (generate_diagram false none upstream).resp.status ≠ 400 := by
  refine ⟨rfl, rfl, by simp [generate_diagram]⟩

/-- Claim C10 (implicit): validation only checks truthiness of `concept`: a truthy
non-string passes validation and its `str()` rendering is interpolated into the prompt
sent upstream, while any falsy value (or an absent field) is rejected with 400 and the
missing-concept message. -/
theorem claim10_truthiness (v : JValue) :
    (jTruthy v = true → ∀ text,
      generate_diagram true (some (.obj [(conceptKey, v)])) (.ok text) =
        ⟨⟨200, .plainText ctTextPlain (cleanResponseText text)⟩,
          [(modelName, buildPrompt (pyStr v))]⟩) ∧
    (jTruthy v = false → ∀ upstream,
      generate_diagram true (some (.obj [(conceptKey, v)])) upstream =
        ⟨⟨400, .errJson errMissingConcept⟩, []⟩) ∧
    (∀ upstream, generate_diagram true (some (.obj [])) upstream =
      ⟨⟨400, .errJson errMissingConcept⟩, []⟩) := by
  have hval : validateBody (some (.obj [(conceptKey, v)])) =
      if jTruthy v then .ok v else .missing := by
    simp [validateBody, getField]
  refine ⟨?_, ?_, ?_⟩
  · intro ht text
    simp [generate_diagram, hval, ht]
  · intro hf upstream
    simp [generate_diagram, hval, hf]
  · intro upstream
    simp [generate_diagram, validateBody, getField]

/-- Witness for claim C10: a truthy non-string concept (a list) is accepted and
interpolated; the falsy concept 0 is rejected with the missing-concept error. -/
theorem claim10_truthiness_witness :
    jTruthy (.arr [.num 1]) = true ∧
    generate_diagram true (some (.obj [(conceptKey, .arr [.num 1])])) (.ok []) =
      ⟨⟨200, .plainText ctTextPlain (cleanResponseText [])⟩,
        [(modelName, buildPrompt (pyStr (.arr [.num 1])))]⟩ ∧
    jTruthy (.num 0) = false ∧
    generate_diagram true (some (.obj [(conceptKey, .num 0)])) (.ok []) =
      ⟨⟨400, .errJson errMissingConcept⟩, []⟩ :=
  ⟨rfl, (claim10_truthiness (.arr [.num 1])).1 rfl [],
    rfl, (claim10_truthiness (.num 0)).2.1 rfl (.ok [])⟩
